import Mathlib

/-!
Shallow embedding of the crash-hotspot DBSCAN pipeline from
`src/dbscan_page.py` (with `src/hotspot_page.py` / `src/map_layers.py` as
context).  A pandas DataFrame is modelled as a column store: the three input
columns LATITUDE, LONGITUD, FATALS are always present; the four columns the
clustering step adds (`cluster`, `fatalities`, `zone_label`, `zone_color`) are
`Option`-valued, `none` meaning "column absent".  Missing float values (NaN)
are modelled by `Option ℚ`; FATALS counts are `ℕ`.  Fallible library calls
(sklearn parameter validation, the pandas length check on column assignment)
become explicit outcome constructors.
-/

set_option maxRecDepth 4000

/-- Model of the pandas DataFrame handed to `apply_dbscan_clustering`
(dbscan_page.py line 7).  Input columns LATITUDE / LONGITUD (floats, possibly
NaN) and FATALS; derived columns are `none` until the clustering step assigns
them (lines 17, 25, 36). -/
structure DF where
  LATITUDE : List (Option ℚ)
  LONGITUD : List (Option ℚ)
  FATALS : List ℕ
  cluster : Option (List ℤ) := none
  fatalities : Option (List ℕ) := none
  zone_label : Option (List String) := none
  zone_color : Option (List String) := none
deriving DecidableEq

/-- Number of rows of the frame (pandas `len(df)`); columns of a DataFrame all
have this common length, see `DF.Wf`. -/
def DF.nrows (df : DF) : ℕ := df.LATITUDE.length

/-- Well-formedness of a column-store frame: the input columns have equal
length (automatic in pandas). -/
def DF.Wf (df : DF) : Prop :=
  df.LONGITUD.length = df.LATITUDE.length ∧ df.FATALS.length = df.LATITUDE.length

/-- Accessor for the `cluster` column; reachable code only reads it after the
`'cluster' in df.columns` guard, so the `[]` default is never observed. -/
def DF.clusterCol (df : DF) : List ℤ := df.cluster.getD []

/-- Accessor for the `fatalities` column (same convention as `DF.clusterCol`). -/
def DF.fatalitiesCol (df : DF) : List ℕ := df.fatalities.getD []

/-- Accessor for the `zone_label` column. -/
def DF.zoneLabelCol (df : DF) : List String := df.zone_label.getD []

/-- Accessor for the `zone_color` column. -/
def DF.zoneColorCol (df : DF) : List String := df.zone_color.getD []

/-- One row of `df[["LATITUDE", "LONGITUD"]]` survives `.dropna()` iff both
coordinates are present (dbscan_page.py line 10). -/
def coordOfRow : Option ℚ × Option ℚ → Option (ℚ × ℚ)
  | (some a, some b) => some (a, b)
  | _ => none

/-- The coordinate matrix `df[["LATITUDE", "LONGITUD"]].dropna().values`
(dbscan_page.py line 10). -/
def validCoords (df : DF) : List (ℚ × ℚ) :=
  (df.LATITUDE.zip df.LONGITUD).filterMap coordOfRow

/-- The zone classifier `categorize_zone` (dbscan_page.py lines 28-34): the
Python `if fatalities >= 100 / elif 50 <= fatalities < 100 / else` chain on a
non-negative fatality sum. -/
def categorize_zone (fatalities : ℕ) : String × String :=
  if fatalities ≥ 100 then ("Danger", "red")
  else if 50 ≤ fatalities ∧ fatalities < 100 then ("Mild", "yellow")
  else ("Low Danger", "green")

/-- Squared Euclidean distance between two points; DBSCAN uses
`metric='euclidean'` (dbscan_page.py line 16), and for `eps > 0` the test
`dist ≤ eps` is equivalent to `sqDist ≤ eps * eps`, which keeps the model in
ℚ. -/
def sqDist (p q : ℚ × ℚ) : ℚ :=
  (p.1 - q.1) * (p.1 - q.1) + (p.2 - q.2) * (p.2 - q.2)

/-- Executable form of the neighbourhood test `sqDist p q ≤ eps * eps`,
cross-multiplied by the (positive) denominators so that only integer
arithmetic occurs; `distLeEps_iff` proves it equivalent to the Euclidean
test of the source.  (Rational addition and multiplication normalise through
`Nat.gcd` and do not reduce definitionally, so the direct rational form of
the test would not be kernel-computable.) -/
def distLeEps (p q : ℚ × ℚ) (eps : ℚ) : Bool :=
  decide
    (((p.1.num * q.1.den - q.1.num * p.1.den) * (p.1.num * q.1.den - q.1.num * p.1.den) *
        (((p.2.den : ℤ) * q.2.den) * ((p.2.den : ℤ) * q.2.den)) +
      (p.2.num * q.2.den - q.2.num * p.2.den) * (p.2.num * q.2.den - q.2.num * p.2.den) *
        (((p.1.den : ℤ) * q.1.den) * ((p.1.den : ℤ) * q.1.den))) *
        ((eps.den : ℤ) * eps.den) ≤
      eps.num * eps.num *
        ((((p.1.den : ℤ) * q.1.den) * ((p.1.den : ℤ) * q.1.den)) *
          (((p.2.den : ℤ) * q.2.den) * ((p.2.den : ℤ) * q.2.den))))

/-- Indices of the points within distance `eps` of point `i` (the
eps-neighbourhood is closed, as in sklearn `radius_neighbors`; it contains `i`
itself). -/
def neighborsOf (pts : List (ℚ × ℚ)) (eps : ℚ) (i : ℕ) : List ℕ :=
  (List.range pts.length).filter fun j =>
    distLeEps (pts.getD i (0, 0)) (pts.getD j (0, 0)) eps

/-- A point is a core point when its eps-neighbourhood (including itself) has
at least `min_samples` elements, as in sklearn DBSCAN. -/
def isCore (pts : List (ℚ × ℚ)) (eps : ℚ) (ms : ℤ) (i : ℕ) : Bool :=
  decide (ms ≤ ((neighborsOf pts eps i).length : ℤ))

/-- Cluster-expansion inner loop of sklearn's `dbscan_inner`: pop an index off
the work list, label it with the current cluster number if still unlabelled,
and if it is a core point enqueue its still-unlabelled neighbours.  Labels
start at `-1` ("unlabelled", which doubles as the final noise label).  `fuel`
bounds the recursion; the supplied fuel always exceeds the number of possible
pushes.  The work list here is processed front-first while sklearn's stack is
LIFO; this can only affect which of two adjacent clusters claims a contested
border point, not the partition into core/border/noise or the numbering of
clusters (which the outer scan fixes). -/
def dbscanExpand (pts : List (ℚ × ℚ)) (eps : ℚ) (ms : ℤ) (labelNum : ℤ) :
    ℕ → List ℕ → List ℤ → List ℤ
  | 0, _, labels => labels
  | _ + 1, [], labels => labels
  | fuel + 1, v :: stack, labels =>
    if labels.getD v 0 = -1 then
      if isCore pts eps ms v then
        dbscanExpand pts eps ms labelNum fuel
          (((neighborsOf pts eps v).filter
              fun w => decide ((labels.set v labelNum).getD w 0 = -1)) ++ stack)
          (labels.set v labelNum)
      else dbscanExpand pts eps ms labelNum fuel stack (labels.set v labelNum)
    else dbscanExpand pts eps ms labelNum fuel stack labels

/-- Outer scan of sklearn's `dbscan_inner`: visit the points in index order;
every still-unlabelled core point seeds a new cluster, numbered in discovery
order starting at 0. -/
def dbscanScan (pts : List (ℚ × ℚ)) (eps : ℚ) (ms : ℤ) :
    List ℕ → ℤ → List ℤ → List ℤ
  | [], _, labels => labels
  | i :: rest, labelNum, labels =>
    if labels.getD i 0 = -1 ∧ isCore pts eps ms i then
      dbscanScan pts eps ms rest (labelNum + 1)
        (dbscanExpand pts eps ms labelNum
          (pts.length * pts.length + pts.length + 1) [i] labels)
    else dbscanScan pts eps ms rest labelNum labels

/-- The label vector `dbscan.fit_predict(coordinates)` (dbscan_page.py
lines 16-17): one integer label per coordinate row, `-1` for noise. -/
def fit_predict (eps : ℚ) (ms : ℤ) (pts : List (ℚ × ℚ)) : List ℤ :=
  dbscanScan pts eps ms (List.range pts.length) 0 (List.replicate pts.length (-1))

/-- Sum of the FATALS entries of the rows whose cluster label is `c`
(the aggregate behind both `transform('sum')` on line 25 and
`('FATALS', 'sum')` on line 149). -/
def aggSumF (cl : List ℤ) (fs : List ℕ) (c : ℤ) : ℕ :=
  (((cl.zip fs).filter fun p => decide (p.1 = c)).map fun p => p.2).sum

/-- The column `df.groupby('cluster')['FATALS'].transform('sum')`
(dbscan_page.py line 25): every row receives the fatality sum of its own
cluster. -/
def transformSum (cl : List ℤ) (fs : List ℕ) : List ℕ :=
  cl.map fun c => aggSumF cl fs c

/-- Outcome of `apply_dbscan_clustering`.  `noValidPointsError` is the
`st.error(...); return df` path of lines 12-14 (the frame comes back without a
`cluster` column); `invalidParameterError` is sklearn's
`InvalidParameterError` raised by `fit_predict` when `eps <= 0` or
`min_samples < 1`; `lengthMismatchError` is the pandas `ValueError` raised by
`df['cluster'] = labels` when the label vector is shorter than the frame. -/
inductive ClusterResult where
  | ok (df : DF)
  | noValidPointsError (df : DF)
  | invalidParameterError
  | lengthMismatchError
deriving DecidableEq

/-- The function `apply_dbscan_clustering(df, eps, min_samples)`
(dbscan_page.py lines 7-38).  Steps, in source order: drop NaN coordinate
rows (line 10); empty check (lines 12-14); `fit_predict` — sklearn first
validates `eps > 0` and `min_samples >= 1`, then computes labels (lines
16-17); the pandas column assignment `df['cluster'] = labels` raises when the
lengths differ (line 17); then the fatality-sum broadcast (line 25) and the
per-row zone columns (line 36).  The dead `'cluster' not in df.columns` check
on lines 20-22 is unreachable right after the assignment and is omitted. -/
def apply_dbscan_clustering (df : DF) (eps : ℚ) (min_samples : ℤ) : ClusterResult :=
  if (validCoords df).length = 0 then
    ClusterResult.noValidPointsError df
  else if eps ≤ 0 ∨ min_samples < 1 then
    ClusterResult.invalidParameterError
  else if (fit_predict eps min_samples (validCoords df)).length ≠ df.nrows then
    ClusterResult.lengthMismatchError
  else
    ClusterResult.ok { df with
      cluster := some (fit_predict eps min_samples (validCoords df)),
      fatalities := some (transformSum (fit_predict eps min_samples (validCoords df)) df.FATALS),
      zone_label := some ((transformSum (fit_predict eps min_samples (validCoords df)) df.FATALS).map
        fun f => (categorize_zone f).1),
      zone_color := some ((transformSum (fit_predict eps min_samples (validCoords df)) df.FATALS).map
        fun f => (categorize_zone f).2) }

/-- The caller's frame after the call: Python passes the DataFrame by
reference, so in-place column assignments inside `apply_dbscan_clustering`
are visible to the caller.  On the two raising paths no column assignment has
completed (sklearn raises inside `fit_predict`, and pandas checks the length
before mutating), so the caller's frame is unchanged there. -/
def caller_table_after (df : DF) (eps : ℚ) (ms : ℤ) : DF :=
  match apply_dbscan_clustering df eps ms with
  | ClusterResult.ok d => d
  | ClusterResult.noValidPointsError d => d
  | ClusterResult.invalidParameterError => df
  | ClusterResult.lengthMismatchError => df

/-- Sorted list of the distinct values of a cluster column: the group keys of
`df.groupby('cluster')`, which pandas emits in ascending key order
(`sort=True` is the groupby default; the explicit
`sort_values(by='cluster')` on line 75 is then the identity). -/
def insertId (c : ℤ) : List ℤ → List ℤ
  | [] => [c]
  | d :: ds => if c < d then c :: d :: ds else if c = d then d :: ds else d :: insertId c ds

/-- Fold of `insertId`: ascending duplicate-free list of group keys. -/
def sortedIds (l : List ℤ) : List ℤ := l.foldr insertId []

/-- Group aggregate `'first'` used on lines 67-69 and 150: the first row of
the group in row order (the columns involved contain no NaN, so pandas
`first`, which skips NaN, coincides with the plain head).  The default is
never observed because the group of a present key is non-empty. -/
def aggFirst {α : Type} (dflt : α) (cl : List ℤ) (col : List α) (c : ℤ) : α :=
  ((((cl.zip col).filter fun p => decide (p.1 = c)).map fun p => p.2).headD dflt)

/-- Group aggregate `('LATITUDE', 'size')` of line 148: the number of rows of
the group. -/
def aggSize (cl : List ℤ) (c : ℤ) : ℕ :=
  (cl.filter fun x => decide (x = c)).length

/-- Group aggregate `'mean'` of lines 70-71: pandas mean over the group,
skipping NaN entries; NaN (here: an empty value set) when the group has no
numeric entry. -/
def aggMean (cl : List ℤ) (col : List (Option ℚ)) (c : ℤ) : Option ℚ :=
  if ((((cl.zip col).filter fun p => decide (p.1 = c)).filterMap fun p => p.2).length) = 0 then none
  else some (((((cl.zip col).filter fun p => decide (p.1 = c)).filterMap fun p => p.2).sum) /
    (((((cl.zip col).filter fun p => decide (p.1 = c)).filterMap fun p => p.2).length : ℚ)))

/-- One row of the map-side `cluster_summary` (dbscan_page.py lines 66-72). -/
structure Summary1 where
  cluster : ℤ
  fatalities : ℕ
  zone_label : String
  zone_color : String
  lat : Option ℚ
  lon : Option ℚ
deriving DecidableEq

/-- One row of the metrics-side `cluster_summary` (dbscan_page.py
lines 147-151). -/
structure Summary2 where
  cluster : ℤ
  crashes : ℕ
  fatalities : ℕ
  zone_label : String
deriving DecidableEq

/-- The map-side `df.groupby('cluster').agg(...)` of lines 66-72 followed by
the (identity) `sort_values(by='cluster')` of line 75: one summary row per
distinct cluster id, in ascending id order.  Reachable calls always have the
four derived columns present (guard on line 210); on a frame without them
Python would raise a KeyError instead. -/
def cluster_summary_map (d : DF) : List Summary1 :=
  (sortedIds d.clusterCol).map fun c =>
    { cluster := c
      fatalities := aggFirst 0 d.clusterCol d.fatalitiesCol c
      zone_label := aggFirst "" d.clusterCol d.zoneLabelCol c
      zone_color := aggFirst "" d.clusterCol d.zoneColorCol c
      lat := aggMean d.clusterCol d.LATITUDE c
      lon := aggMean d.clusterCol d.LONGITUD c }

/-- The metrics-side `df.groupby('cluster').agg(...)` of lines 147-151. -/
def cluster_summary_metrics (d : DF) : List Summary2 :=
  (sortedIds d.clusterCol).map fun c =>
    { cluster := c
      crashes := aggSize d.clusterCol c
      fatalities := aggSumF d.clusterCol d.FATALS c
      zone_label := aggFirst "" d.clusterCol d.zoneLabelCol c }

/-- Stable descending insertion by a numeric key: the inserted element goes in
front of every element whose key is not larger, so earlier rows stay in front
on key ties. -/
def insertDescBy {α : Type} (key : α → ℕ) (a : α) : List α → List α
  | [] => [a]
  | b :: bs => if key b ≤ key a then a :: b :: bs else b :: insertDescBy key a bs

/-- Stable descending sort by a numeric key. -/
def sortDescBy {α : Type} (key : α → ℕ) : List α → List α
  | [] => []
  | a :: as => insertDescBy key a (sortDescBy key as)

/-- Model of pandas `DataFrame.nlargest(n, column)` with the default
`keep='first'`: rows ordered descending by the column, key ties kept in
original row order (first occurrence prioritised), truncated to `n`. -/
def nlargest {α : Type} (n : ℕ) (key : α → ℕ) (xs : List α) : List α :=
  (sortDescBy key xs).take n

/-- The map-side ranking `cluster_summary.nlargest(10, "fatalities")` of
line 81. -/
def top_clusters_map (s : List Summary1) : List Summary1 :=
  nlargest 10 Summary1.fatalities s

/-- The metrics-side ranking `cluster_summary.nlargest(top_n, "crashes")` of
line 162. -/
def top_clusters_metrics (top_n : ℕ) (s : List Summary2) : List Summary2 :=
  nlargest top_n Summary2.crashes s

/-- The `top_n` computation of dbscan_page.py lines 153-159: derived inside
the renderer from the county and city filter selections. -/
def choose_top_n (county city : String) : ℕ :=
  if county ≠ "All counties" then 5
  else if city ≠ "All cities" then 3
  else 10

/-- Keep each list entry whose mask bit is true (row selection
`df[df['cluster'] != -1]`, applied column-wise). -/
def filterByMask {α : Type} (mask : List Bool) (l : List α) : List α :=
  ((mask.zip l).filter fun p => p.1).map fun p => p.2

/-- The outlier removal `clustered_df[clustered_df['cluster'] != -1]` of
line 216, dropping every noise row from all columns. -/
def removeOutliers (d : DF) : DF :=
  match d.cluster with
  | none => d
  | some cl =>
    { LATITUDE := filterByMask (cl.map fun c => decide (c ≠ -1)) d.LATITUDE
      LONGITUD := filterByMask (cl.map fun c => decide (c ≠ -1)) d.LONGITUD
      FATALS := filterByMask (cl.map fun c => decide (c ≠ -1)) d.FATALS
      cluster := some (filterByMask (cl.map fun c => decide (c ≠ -1)) cl)
      fatalities := d.fatalities.map (filterByMask (cl.map fun c => decide (c ≠ -1)))
      zone_label := d.zone_label.map (filterByMask (cl.map fun c => decide (c ≠ -1)))
      zone_color := d.zone_color.map (filterByMask (cl.map fun c => decide (c ≠ -1))) }

/-- Observable outcome of the page flow.  `noDataAfterFilters` is the
line 197-199 early return, `clusteringFailed` the line 210-212 early return,
`raised` a propagated library exception, `emptyView` the line 61-63 early
return inside the renderer, and `rendered` carries the two ranked summary
tables (the map's top-10 by fatalities and the metrics top-N by crashes)
before their presentation-only decoration (cluster_name labels, HTML
colouring of lines 84 and 164-176). -/
inductive PageResult where
  | noDataAfterFilters
  | clusteringFailed
  | raised
  | emptyView
  | rendered (topMap : List Summary1) (topMetrics : List Summary2)
deriving DecidableEq

/-- The renderer `render_map_and_metrics_with_dbscan` (lines 57-182),
abstracted to the data it computes: early return on an empty frame, else the
two grouped summaries and their rankings. -/
def render_map_and_metrics_with_dbscan (d : DF) (county city : String) : PageResult :=
  if d.nrows = 0 then PageResult.emptyView
  else
    PageResult.rendered
      (top_clusters_map (cluster_summary_map d))
      (top_clusters_metrics (choose_top_n county city) (cluster_summary_metrics d))

/-- Continuation of `render_dbscan_page` after `apply_dbscan_clustering`
returned a frame (lines 209-221): the `'cluster' in columns` guard, then the
optional outlier removal, then the renderer. -/
def afterClustering (clustered : DF) (show_outliers : Bool) (county city : String) : PageResult :=
  if clustered.cluster.isSome then
    render_map_and_metrics_with_dbscan
      (if show_outliers then clustered else removeOutliers clustered) county city
  else PageResult.clusteringFailed

/-- The page `render_dbscan_page` (lines 184-221), starting from the already
filtered frame: the sidebar-filter module (`filters_hotspot`) is an external
collaborator not in this repository, so the page is modelled as a function of
its output `filtered` together with the slider values it forwards. -/
def render_dbscan_page (filtered : DF) (eps : ℚ) (min_samples : ℤ)
    (show_outliers : Bool) (county city : String) : PageResult :=
  if filtered.nrows = 0 then PageResult.noDataAfterFilters
  else
    match apply_dbscan_clustering filtered eps min_samples with
    | ClusterResult.invalidParameterError => PageResult.raised
    | ClusterResult.lengthMismatchError => PageResult.raised
    | ClusterResult.noValidPointsError clustered =>
        afterClustering clustered show_outliers county city
    | ClusterResult.ok clustered =>
        afterClustering clustered show_outliers county city

/-- Metrics table shown by a page outcome (empty unless the page rendered). -/
def pageMetrics : PageResult → List Summary2
  | PageResult.rendered _ m => m
  | _ => []

/-- Map-side ranked summaries shown by a page outcome. -/
def pageMapTop : PageResult → List Summary1
  | PageResult.rendered m _ => m
  | _ => []

/-- Concrete frame with a single valid-coordinate crash record. -/
def exOnePoint : DF := { LATITUDE := [some 0], LONGITUD := [some 0], FATALS := [3] }

/-- Concrete frame with two coincident valid points. -/
def exTwo : DF := { LATITUDE := [some 0, some 0], LONGITUD := [some 0, some 0], FATALS := [2, 3] }

/-- The frame `exTwo` after clustering with `eps = 1`, `min_samples = 1`:
both points form cluster 0. -/
def exTwoCl : DF :=
  { LATITUDE := [some 0, some 0], LONGITUD := [some 0, some 0], FATALS := [2, 3]
    cluster := some [0, 0], fatalities := some [5, 5]
    zone_label := some ["Low Danger", "Low Danger"], zone_color := some ["green", "green"] }

/-- Concrete frame with two mutually distant points (both noise for
`min_samples = 2`). -/
def exNoise2 : DF := { LATITUDE := [some 0, some 100], LONGITUD := [some 0, some 0], FATALS := [2, 3] }

/-- The frame `exNoise2` after clustering with `eps = 1`, `min_samples = 2`:
both points are noise, and the fatality broadcast gives each noise row the
collective noise sum 5. -/
def exNoise2Cl : DF :=
  { LATITUDE := [some 0, some 100], LONGITUD := [some 0, some 0], FATALS := [2, 3]
    cluster := some [-1, -1], fatalities := some [5, 5]
    zone_label := some ["Low Danger", "Low Danger"], zone_color := some ["green", "green"] }

/-- Concrete frame mixing one valid-coordinate row with one row whose
LATITUDE is NaN. -/
def exNanRow : DF := { LATITUDE := [some 0, none], LONGITUD := [some 0, some 1], FATALS := [1, 1] }

/-- Concrete non-empty frame none of whose rows has complete coordinates. -/
def exNoCoords : DF := { LATITUDE := [none], LONGITUD := [some 0], FATALS := [1] }

/-- Concrete frame with six mutually distant points: with `min_samples = 1`
every point is its own cluster, giving six cluster ids 0..5. -/
def exSix : DF :=
  { LATITUDE := [some 0, some 10, some 20, some 30, some 40, some 50]
    LONGITUD := [some 0, some 0, some 0, some 0, some 0, some 0]
    FATALS := [1, 2, 3, 4, 5, 6] }

/-- The frame `exSix` after clustering with `eps = 1`, `min_samples = 1`:
each point is its own cluster, ids assigned in scan order. -/
def exSixCl : DF :=
  { LATITUDE := [some 0, some 10, some 20, some 30, some 40, some 50]
    LONGITUD := [some 0, some 0, some 0, some 0, some 0, some 0]
    FATALS := [1, 2, 3, 4, 5, 6]
    cluster := some [0, 1, 2, 3, 4, 5]
    fatalities := some [1, 2, 3, 4, 5, 6]
    zone_label := some ["Low Danger", "Low Danger", "Low Danger", "Low Danger",
      "Low Danger", "Low Danger"]
    zone_color := some ["green", "green", "green", "green", "green", "green"] }

/-- Map-side analogue of the ranking-stability example: ids 0, 1, 2 with
fatality sums 5, 10, 10. -/
def exRank1 : List Summary1 :=
  [{ cluster := 0, fatalities := 5, zone_label := "Low Danger", zone_color := "green",
     lat := some 0, lon := some 0 },
   { cluster := 1, fatalities := 10, zone_label := "Low Danger", zone_color := "green",
     lat := some 1, lon := some 0 },
   { cluster := 2, fatalities := 10, zone_label := "Low Danger", zone_color := "green",
     lat := some 2, lon := some 0 }]

/-- Three summaries realizing the ranking-stability example of the spec:
ids 0, 1, 2 with crash counts 1 and fatality sums 5, 10, 10. -/
def exRank : List Summary2 :=
  [{ cluster := 0, crashes := 1, fatalities := 5, zone_label := "Low Danger" },
   { cluster := 1, crashes := 1, fatalities := 10, zone_label := "Low Danger" },
   { cluster := 2, crashes := 1, fatalities := 10, zone_label := "Low Danger" }]

/-- Equivalence of the executable integer-arithmetic neighbourhood test with
the Euclidean test of the source: `distLeEps p q eps` holds exactly when the
squared Euclidean distance between `p` and `q` is at most `eps * eps`. -/
theorem distLeEps_iff (p q : ℚ × ℚ) (eps : ℚ) :
    distLeEps p q eps = true ↔ sqDist p q ≤ eps * eps := by
  have hp1 : ((p.1.den : ℚ)) ≠ 0 := by
    exact_mod_cast p.1.den_pos.ne'
  have hq1 : ((q.1.den : ℚ)) ≠ 0 := by
    exact_mod_cast q.1.den_pos.ne'
  have hp2 : ((p.2.den : ℚ)) ≠ 0 := by
    exact_mod_cast p.2.den_pos.ne'
  have hq2 : ((q.2.den : ℚ)) ≠ 0 := by
    exact_mod_cast q.2.den_pos.ne'
  have h1 : p.1 - q.1 = ((p.1.num * q.1.den - q.1.num * p.1.den : ℤ) : ℚ) /
      (((p.1.den : ℤ) * q.1.den : ℤ) : ℚ) := by
    conv_lhs => rw [← Rat.num_div_den p.1, ← Rat.num_div_den q.1]
    rw [div_sub_div _ _ hp1 hq1]
    push_cast
    ring
  have h2 : p.2 - q.2 = ((p.2.num * q.2.den - q.2.num * p.2.den : ℤ) : ℚ) /
      (((p.2.den : ℤ) * q.2.den : ℤ) : ℚ) := by
    conv_lhs => rw [← Rat.num_div_den p.2, ← Rat.num_div_den q.2]
    rw [div_sub_div _ _ hp2 hq2]
    push_cast
    ring
  have hd1 : (0:ℚ) < ((((p.1.den : ℤ) * q.1.den) * ((p.1.den : ℤ) * q.1.den) : ℤ) : ℚ) := by
    have : (0:ℤ) < ((p.1.den : ℤ) * q.1.den) * ((p.1.den : ℤ) * q.1.den) := by
      have a1 : (0:ℤ) < (p.1.den : ℤ) := by exact_mod_cast p.1.den_pos
      have a2 : (0:ℤ) < (q.1.den : ℤ) := by exact_mod_cast q.1.den_pos
      positivity
    exact_mod_cast this
  have hd2 : (0:ℚ) < ((((p.2.den : ℤ) * q.2.den) * ((p.2.den : ℤ) * q.2.den) : ℤ) : ℚ) := by
    have : (0:ℤ) < ((p.2.den : ℤ) * q.2.den) * ((p.2.den : ℤ) * q.2.den) := by
      have a1 : (0:ℤ) < (p.2.den : ℤ) := by exact_mod_cast p.2.den_pos
      have a2 : (0:ℤ) < (q.2.den : ℤ) := by exact_mod_cast q.2.den_pos
      positivity
    exact_mod_cast this
  have hde : (0:ℚ) < (((eps.den : ℤ) * eps.den : ℤ) : ℚ) := by
    have : (0:ℤ) < (eps.den : ℤ) * eps.den := by
      have a1 : (0:ℤ) < (eps.den : ℤ) := by exact_mod_cast eps.den_pos
      positivity
    exact_mod_cast this
  have hsq : sqDist p q =
      (((p.1.num * q.1.den - q.1.num * p.1.den) * (p.1.num * q.1.den - q.1.num * p.1.den) *
          (((p.2.den : ℤ) * q.2.den) * ((p.2.den : ℤ) * q.2.den)) +
        (p.2.num * q.2.den - q.2.num * p.2.den) * (p.2.num * q.2.den - q.2.num * p.2.den) *
          (((p.1.den : ℤ) * q.1.den) * ((p.1.den : ℤ) * q.1.den)) : ℤ) : ℚ) /
      (((((p.1.den : ℤ) * q.1.den) * ((p.1.den : ℤ) * q.1.den)) *
          (((p.2.den : ℤ) * q.2.den) * ((p.2.den : ℤ) * q.2.den)) : ℤ) : ℚ) := by
    unfold sqDist
    rw [h1, h2]
    push_cast
    field_simp
  have heps : eps * eps = ((eps.num * eps.num : ℤ) : ℚ) / (((eps.den : ℤ) * eps.den : ℤ) : ℚ) := by
    conv_lhs => rw [← Rat.num_div_den eps]
    rw [div_mul_div_comm]
    push_cast
    ring
  have hbd : (0:ℚ) < (((((p.1.den : ℤ) * q.1.den) * ((p.1.den : ℤ) * q.1.den)) *
      (((p.2.den : ℤ) * q.2.den) * ((p.2.den : ℤ) * q.2.den)) : ℤ) : ℚ) := by
    have a1 : (0:ℤ) < (p.1.den : ℤ) := by exact_mod_cast p.1.den_pos
    have a2 : (0:ℤ) < (q.1.den : ℤ) := by exact_mod_cast q.1.den_pos
    have a3 : (0:ℤ) < (p.2.den : ℤ) := by exact_mod_cast p.2.den_pos
    have a4 : (0:ℤ) < (q.2.den : ℤ) := by exact_mod_cast q.2.den_pos
    have : (0:ℤ) < (((p.1.den : ℤ) * q.1.den) * ((p.1.den : ℤ) * q.1.den)) *
        (((p.2.den : ℤ) * q.2.den) * ((p.2.den : ℤ) * q.2.den)) := by positivity
    exact_mod_cast this
  unfold distLeEps
  rw [decide_eq_true_iff, hsq, heps, div_le_div_iff₀ hbd hde,
    ← Int.cast_mul, ← Int.cast_mul, Int.cast_le]

theorem getD_map_lt {α β : Type} (f : α → β) (l : List α) (i : ℕ) (d1 : β) (d2 : α)
    (h : i < l.length) : (l.map f).getD i d1 = f (l.getD i d2) := by
  induction l generalizing i with
  | nil => simp at h
  | cons a tl ih =>
    cases i with
    | zero => rfl
    | succ j => simpa using ih j (by simpa using h)

theorem filterMap_length_of_all_isSome {α β : Type} (f : α → Option β) (l : List α)
    (h : ∀ x ∈ l, (f x).isSome) : (l.filterMap f).length = l.length := by
  induction l with
  | nil => rfl
  | cons a tl ih =>
    obtain ⟨b, hb⟩ := Option.isSome_iff_exists.mp (h a (by simp))
    rw [List.filterMap_cons, hb]
    simp [ih fun x hx => h x (by simp [hx])]

theorem all_isSome_of_filterMap_length {α β : Type} (f : α → Option β) (l : List α)
    (h : (l.filterMap f).length = l.length) : ∀ x ∈ l, (f x).isSome := by
  induction l with
  | nil => simp
  | cons a tl ih =>
    cases hfa : f a with
    | none =>
      exfalso
      rw [List.filterMap_cons, hfa] at h
      have := List.length_filterMap_le f tl
      simp at h
      omega
    | some b =>
      intro x hx
      rcases List.mem_cons.mp hx with rfl | hx2
      · simp [hfa]
      · refine ih ?_ x hx2
        rw [List.filterMap_cons, hfa] at h
        simpa using h

theorem validCoords_isSome (lat lon : List (Option ℚ)) (hlen : lon.length = lat.length)
    (h : ((lat.zip lon).filterMap coordOfRow).length = lat.length) :
    (∀ x ∈ lat, x.isSome) ∧ (∀ y ∈ lon, y.isSome) := by
  induction lat generalizing lon with
  | nil =>
    refine ⟨by simp, ?_⟩
    intro y hy
    rw [List.length_eq_zero.mp hlen] at hy
    simp at hy
  | cons a tl ih =>
    cases lon with
    | nil => simp at hlen
    | cons b bs =>
      have hlen2 : bs.length = tl.length := by simpa using hlen
      rw [List.zip_cons_cons, List.filterMap_cons] at h
      cases hab : coordOfRow (a, b) with
      | none =>
        exfalso
        rw [hab] at h
        have hle := List.length_filterMap_le coordOfRow (tl.zip bs)
        have hzl : (tl.zip bs).length = tl.length := by
          rw [List.length_zip, hlen2, min_self]
        simp at h
        omega
      | some p =>
        rw [hab] at h
        simp only [List.length_cons, List.length_cons, Nat.succ.injEq] at h
        obtain ⟨h1, h2⟩ := ih bs hlen2 h
        constructor
        · intro x hx
          rcases List.mem_cons.mp hx with rfl | hx2
          · cases x <;> cases b <;> simp [coordOfRow] at hab ⊢
          · exact h1 x hx2
        · intro y hy
          rcases List.mem_cons.mp hy with rfl | hy2
          · cases a <;> cases y <;> simp [coordOfRow] at hab ⊢
          · exact h2 y hy2

theorem filter_zip_fst_length {α : Type} (cl : List ℤ) (col : List α) (c : ℤ)
    (hlen : col.length = cl.length) :
    ((cl.zip col).filter fun p => decide (p.1 = c)).length
      = (cl.filter fun x => decide (x = c)).length := by
  induction cl generalizing col with
  | nil => rfl
  | cons x xs ih =>
    cases col with
    | nil => simp at hlen
    | cons y ys =>
      have hlen2 : ys.length = xs.length := by simpa using hlen
      by_cases hx : x = c
      · simp [List.zip_cons_cons, List.filter_cons, hx, ih ys hlen2]
      · simp [List.zip_cons_cons, List.filter_cons, hx, ih ys hlen2]

theorem aggMean_eq_of_all_isSome (cl : List ℤ) (col : List (Option ℚ)) (c : ℤ)
    (hall : ∀ x ∈ col, x.isSome) (hlen : col.length = cl.length) (hc : c ∈ cl) :
    aggMean cl col c =
      some (((((cl.zip col).filter fun p => decide (p.1 = c)).filterMap fun p => p.2).sum) /
        ((cl.countP fun x => decide (x = c) : ℕ) : ℚ)) := by
  have hall2 : ∀ p ∈ (cl.zip col).filter (fun p => decide (p.1 = c)),
      ((fun p : ℤ × Option ℚ => p.2) p).isSome := by
    intro p hp
    obtain ⟨p1, p2⟩ := p
    exact hall p2 (List.of_mem_zip (List.mem_of_mem_filter hp)).2
  have hflen := filterMap_length_of_all_isSome _ _ hall2
  have hcount := filter_zip_fst_length cl col c hlen
  have hpos : 0 < cl.countP fun x => decide (x = c) :=
    List.countP_pos_iff.mpr ⟨c, hc, by simp⟩
  have hlenpos :
      (((cl.zip col).filter fun p => decide (p.1 = c)).filterMap fun p => p.2).length ≠ 0 := by
    rw [hflen, hcount, ← List.countP_eq_length_filter]
    omega
  unfold aggMean
  rw [if_neg hlenpos]
  congr 1
  rw [hflen, hcount, ← List.countP_eq_length_filter]

theorem mem_insertId (a c : ℤ) (l : List ℤ) : a ∈ insertId c l ↔ a = c ∨ a ∈ l := by
  induction l with
  | nil => simp [insertId]
  | cons d ds ih =>
    by_cases h1 : c < d
    · simp [insertId, h1]
    · by_cases h2 : c = d
      · subst h2
        simp [insertId, h1]
      · simp only [insertId, if_neg h1, if_neg h2, List.mem_cons, ih]
        tauto

theorem pairwise_insertId (c : ℤ) (l : List ℤ) (h : l.Pairwise (· < ·)) :
    (insertId c l).Pairwise (· < ·) := by
  induction l with
  | nil => simp [insertId]
  | cons d ds ih =>
    rw [List.pairwise_cons] at h
    obtain ⟨hd, hds⟩ := h
    by_cases h1 : c < d
    · rw [insertId, if_pos h1, List.pairwise_cons]
      refine ⟨?_, List.pairwise_cons.mpr ⟨hd, hds⟩⟩
      intro a ha
      rcases List.mem_cons.mp ha with rfl | ha2
      · exact h1
      · exact lt_trans h1 (hd a ha2)
    · by_cases h2 : c = d
      · rw [insertId, if_neg h1, if_pos h2]
        exact List.pairwise_cons.mpr ⟨hd, hds⟩
      · rw [insertId, if_neg h1, if_neg h2, List.pairwise_cons]
        refine ⟨?_, ih hds⟩
        intro a ha
        rcases (mem_insertId a c ds).mp ha with rfl | ha2
        · omega
        · exact hd a ha2

theorem sortedIds_pairwise (l : List ℤ) : (sortedIds l).Pairwise (· < ·) := by
  induction l with
  | nil => simp [sortedIds]
  | cons a tl ih => exact pairwise_insertId a (sortedIds tl) ih

theorem mem_sortedIds (a : ℤ) (l : List ℤ) : a ∈ sortedIds l ↔ a ∈ l := by
  induction l with
  | nil => simp [sortedIds]
  | cons b tl ih =>
    show a ∈ insertId b (sortedIds tl) ↔ _
    rw [mem_insertId, ih]
    simp

theorem aggFirst_map {α : Type} (dflt : α) (cl : List ℤ) (f : ℤ → α) (c : ℤ)
    (hc : c ∈ cl) : aggFirst dflt cl (cl.map f) c = f c := by
  induction cl with
  | nil => simp at hc
  | cons a tl ih =>
    by_cases ha : a = c
    · subst ha
      simp [aggFirst, List.zip_cons_cons, List.filter_cons]
    · have hc2 : c ∈ tl := by
        rcases List.mem_cons.mp hc with h | h
        · exact absurd h.symm ha
        · exact h
      have := ih hc2
      simpa [aggFirst, List.zip_cons_cons, List.filter_cons, ha] using this

theorem mem_insertDescBy {α : Type} (key : α → ℕ) (a x : α) (l : List α) :
    x ∈ insertDescBy key a l ↔ x = a ∨ x ∈ l := by
  induction l with
  | nil => simp [insertDescBy]
  | cons b bs ih =>
    by_cases h : key b ≤ key a
    · simp [insertDescBy, h]
    · simp only [insertDescBy, if_neg h, List.mem_cons, ih]
      tauto

theorem length_insertDescBy {α : Type} (key : α → ℕ) (a : α) (l : List α) :
    (insertDescBy key a l).length = l.length + 1 := by
  induction l with
  | nil => rfl
  | cons b bs ih =>
    by_cases h : key b ≤ key a
    · simp [insertDescBy, h]
    · simp [insertDescBy, h, ih]

theorem length_sortDescBy {α : Type} (key : α → ℕ) (l : List α) :
    (sortDescBy key l).length = l.length := by
  induction l with
  | nil => rfl
  | cons a as ih => simp [sortDescBy, length_insertDescBy, ih]

theorem mem_sortDescBy {α : Type} (key : α → ℕ) (x : α) (l : List α) :
    x ∈ sortDescBy key l ↔ x ∈ l := by
  induction l with
  | nil => simp [sortDescBy]
  | cons a as ih =>
    simp only [sortDescBy, mem_insertDescBy, ih, List.mem_cons]

theorem insertDescBy_pairwise {α : Type} (key : α → ℕ) (idf : α → ℤ) (a : α) (l : List α)
    (hl : l.Pairwise fun x y => key y < key x ∨ (key x = key y ∧ idf x < idf y))
    (ha : ∀ b ∈ l, idf a < idf b) :
    (insertDescBy key a l).Pairwise
      fun x y => key y < key x ∨ (key x = key y ∧ idf x < idf y) := by
  induction l with
  | nil => simp [insertDescBy]
  | cons b bs ih =>
    rw [List.pairwise_cons] at hl
    obtain ⟨hb, hbs⟩ := hl
    by_cases h : key b ≤ key a
    · rw [insertDescBy, if_pos h, List.pairwise_cons]
      refine ⟨?_, List.pairwise_cons.mpr ⟨hb, hbs⟩⟩
      intro x hx
      rcases List.mem_cons.mp hx with rfl | hx2
      · rcases Nat.lt_or_ge (key x) (key a) with h2 | h2
        · exact Or.inl h2
        · exact Or.inr ⟨by omega, ha x (by simp)⟩
      · rcases hb x hx2 with h3 | h3
        · exact Or.inl (lt_of_lt_of_le h3 h)
        · rcases Nat.lt_or_ge (key x) (key a) with h4 | h4
          · exact Or.inl h4
          · exact Or.inr ⟨by omega, ha x (by simp [hx2])⟩
    · rw [insertDescBy, if_neg h, List.pairwise_cons]
      refine ⟨?_, ih hbs fun b2 hb2 => ha b2 (by simp [hb2])⟩
      intro x hx
      rcases (mem_insertDescBy key a x bs).mp hx with rfl | hx2
      · exact Or.inl (by omega)
      · exact hb x hx2

theorem sortDescBy_pairwise {α : Type} (key : α → ℕ) (idf : α → ℤ) (l : List α)
    (h : l.Pairwise fun x y => idf x < idf y) :
    (sortDescBy key l).Pairwise
      fun x y => key y < key x ∨ (key x = key y ∧ idf x < idf y) := by
  induction l with
  | nil => simp [sortDescBy]
  | cons a as ih =>
    rw [List.pairwise_cons] at h
    exact insertDescBy_pairwise key idf a _ (ih h.2)
      fun b hb => h.1 b ((mem_sortDescBy key b as).mp hb)

theorem nlargest_length {α : Type} (n : ℕ) (key : α → ℕ) (xs : List α) :
    (nlargest n key xs).length = min n xs.length := by
  unfold nlargest
  rw [List.length_take, length_sortDescBy]

theorem nlargest_mem {α : Type} (n : ℕ) (key : α → ℕ) (xs : List α) :
    ∀ x ∈ nlargest n key xs, x ∈ xs := by
  intro x hx
  exact (mem_sortDescBy key x xs).mp ((List.take_sublist n _).subset hx)

theorem nlargest_pairwise {α : Type} (n : ℕ) (key : α → ℕ) (idf : α → ℤ) (xs : List α)
    (h : xs.Pairwise fun x y => idf x < idf y) :
    (nlargest n key xs).Pairwise
      fun x y => key y < key x ∨ (key x = key y ∧ idf x < idf y) := by
  exact (sortDescBy_pairwise key idf xs h).sublist (List.take_sublist n _)

theorem nlargest_all {α : Type} (n : ℕ) (key : α → ℕ) (xs : List α)
    (h : xs.length ≤ n) : ∀ x ∈ xs, x ∈ nlargest n key xs := by
  intro x hx
  unfold nlargest
  rw [List.take_of_length_le (by rw [length_sortDescBy]; exact h)]
  exact (mem_sortDescBy key x xs).mpr hx

theorem dbscanExpand_length (pts : List (ℚ × ℚ)) (eps : ℚ) (ms : ℤ) (ln : ℤ) :
    ∀ (fuel : ℕ) (stack : List ℕ) (labels : List ℤ),
      (dbscanExpand pts eps ms ln fuel stack labels).length = labels.length := by
  intro fuel
  induction fuel with
  | zero => intro stack labels; rfl
  | succ m ih =>
    intro stack labels
    cases stack with
    | nil => rfl
    | cons v vs =>
      simp only [dbscanExpand]
      split_ifs with h1 h2
      · rw [ih]; exact List.length_set labels v ln
      · rw [ih]; exact List.length_set labels v ln
      · exact ih vs labels

theorem dbscanScan_length (pts : List (ℚ × ℚ)) (eps : ℚ) (ms : ℤ) :
    ∀ (idx : List ℕ) (ln : ℤ) (labels : List ℤ),
      (dbscanScan pts eps ms idx ln labels).length = labels.length := by
  intro idx
  induction idx with
  | nil => intro ln labels; rfl
  | cons i rest ih =>
    intro ln labels
    simp only [dbscanScan]
    split_ifs with h
    · rw [ih, dbscanExpand_length]
    · exact ih ln labels

theorem fit_predict_length (eps : ℚ) (ms : ℤ) (pts : List (ℚ × ℚ)) :
    (fit_predict eps ms pts).length = pts.length := by
  unfold fit_predict
  rw [dbscanScan_length, List.length_replicate]

theorem apply_ok_elim {df : DF} {eps : ℚ} {ms : ℤ} {d : DF}
    (h : apply_dbscan_clustering df eps ms = ClusterResult.ok d) :
    (validCoords df).length ≠ 0 ∧ ¬(eps ≤ 0 ∨ ms < 1) ∧
    (fit_predict eps ms (validCoords df)).length = df.nrows ∧
    d = { df with
          cluster := some (fit_predict eps ms (validCoords df)),
          fatalities := some (transformSum (fit_predict eps ms (validCoords df)) df.FATALS),
          zone_label := some ((transformSum (fit_predict eps ms (validCoords df)) df.FATALS).map
            fun f => (categorize_zone f).1),
          zone_color := some ((transformSum (fit_predict eps ms (validCoords df)) df.FATALS).map
            fun f => (categorize_zone f).2) } := by
  unfold apply_dbscan_clustering at h
  split_ifs at h with h1 h2 h3
  refine ⟨h1, h2, not_not.mp h3, ?_⟩
  injection h with h4
  exact h4.symm

/-- C2: the zone classifier `categorize_zone` is a total function of a
non-negative integer fatality sum returning ("Danger", red) for sums at least
100, ("Mild", yellow) on [50, 100), ("Low Danger", green) below 50, with the
boundary values 99, 100, 49, 50 mapping as stated. -/
theorem C2_categorize_zone_spec :
    (∀ f : ℕ, 100 ≤ f → categorize_zone f = ("Danger", "red")) ∧
    (∀ f : ℕ, 50 ≤ f → f < 100 → categorize_zone f = ("Mild", "yellow")) ∧
    (∀ f : ℕ, f < 50 → categorize_zone f = ("Low Danger", "green")) ∧
    categorize_zone 99 = ("Mild", "yellow") ∧
    categorize_zone 100 = ("Danger", "red") ∧
    categorize_zone 49 = ("Low Danger", "green") ∧
    categorize_zone 50 = ("Mild", "yellow") := by
  refine ⟨?_, ?_, ?_, by decide, by decide, by decide, by decide⟩
  · intro f h
    simp [categorize_zone, h]
  · intro f h1 h2
    have h3 : ¬ f ≥ 100 := by omega
    simp [categorize_zone, h3, h1, h2]
  · intro f h
    have h1 : ¬ f ≥ 100 := by omega
    have h2 : ¬ (50 ≤ f ∧ f < 100) := by omega
    simp [categorize_zone, h1, h2]

/-- C2 witness: the three threshold clauses of `C2_categorize_zone_spec`
evaluated at 150, 75 and 10. -/
theorem C2_categorize_zone_spec_witness :
    categorize_zone 150 = ("Danger", "red") ∧
    categorize_zone 75 = ("Mild", "yellow") ∧
    categorize_zone 10 = ("Low Danger", "green") :=
  ⟨C2_categorize_zone_spec.1 150 (by decide),
   C2_categorize_zone_spec.2.1 75 (by decide) (by decide),
   C2_categorize_zone_spec.2.2.1 10 (by decide)⟩

/-- C3 code bug: on a two-row frame with one NaN-coordinate row, clustering
labels only the one valid row, and the pandas assignment
`df['cluster'] = labels` raises a length-mismatch ValueError, so the valid
record never receives its cluster id. -/
theorem C3_code_bug_nan_row_crash :
    exNanRow.nrows = 2 ∧ (validCoords exNanRow).length = 1 ∧
    apply_dbscan_clustering exNanRow 1 1 = ClusterResult.lengthMismatchError := by
  decide

/-- C6: with zero valid-coordinate points the clustering engine takes the
`NoValidPoints` path, returning the caller's frame without a cluster
assignment, and the page treats this as a clustering failure (error message
and early return) rather than as an empty hotspot result. -/
theorem C6_no_valid_points_signal (df : DF) (eps : ℚ) (ms : ℤ)
    (so : Bool) (county city : String)
    (hvalid : validCoords df = []) (hfresh : df.cluster = none)
    (hn : ¬ df.nrows = 0) :
    apply_dbscan_clustering df eps ms = ClusterResult.noValidPointsError df ∧
    render_dbscan_page df eps ms so county city = PageResult.clusteringFailed := by
  have h1 : apply_dbscan_clustering df eps ms = ClusterResult.noValidPointsError df := by
    unfold apply_dbscan_clustering
    rw [hvalid]
    simp
  refine ⟨h1, ?_⟩
  unfold render_dbscan_page
  rw [if_neg hn, h1]
  show afterClustering df so county city = PageResult.clusteringFailed
  unfold afterClustering
  rw [hfresh]
  simp

/-- C6 witness: `C6_no_valid_points_signal` at the concrete frame
`exNoCoords` whose single row has a NaN latitude. -/
theorem C6_no_valid_points_signal_witness :
    apply_dbscan_clustering exNoCoords 1 5 = ClusterResult.noValidPointsError exNoCoords ∧
    render_dbscan_page exNoCoords 1 5 true "All counties" "All cities" =
      PageResult.clusteringFailed :=
  C6_no_valid_points_signal exNoCoords 1 5 true "All counties" "All cities"
    (by decide) rfl (by decide)

/-- C7 counterexample: a call with `eps = -1 <= 0` on a frame with zero
valid-coordinate points does not fail with the InvalidParameter outcome — the
empty-input check of lines 12-14 runs first and the call returns the
NoValidPoints outcome instead. -/
theorem C7_counterexample_empty_precedence :
    ((-1 : ℚ) ≤ 0) ∧
    apply_dbscan_clustering exNoCoords (-1) 5 = ClusterResult.noValidPointsError exNoCoords ∧
    apply_dbscan_clustering exNoCoords (-1) 5 ≠ ClusterResult.invalidParameterError := by
  decide

/-- C7 amended: for every call with at least one valid-coordinate point and
`eps <= 0` or `min_samples < 1`, the clustering engine fails with the
InvalidParameter outcome (sklearn validates the parameters at the start of
`fit_predict`, before any clustering computation) and never coerces the
invalid parameter into a successful run. -/
theorem C7_amended_invalid_parameter (df : DF) (eps : ℚ) (ms : ℤ)
    (hvc : ¬ (validCoords df).length = 0) (hbad : eps ≤ 0 ∨ ms < 1) :
    apply_dbscan_clustering df eps ms = ClusterResult.invalidParameterError := by
  unfold apply_dbscan_clustering
  rw [if_neg hvc, if_pos hbad]

/-- C7 witness: `C7_amended_invalid_parameter` at the one-point frame
`exOnePoint` with `eps = -2`. -/
theorem C7_amended_invalid_parameter_witness :
    apply_dbscan_clustering exOnePoint (-2) 7 = ClusterResult.invalidParameterError :=
  C7_amended_invalid_parameter exOnePoint (-2) 7 (by decide) (Or.inl (by decide))

/-- C1 counterexample: on the one-point frame with `min_samples = 2` the
single record is labelled noise (-1), yet the aggregation stage produces a
summary row for cluster id -1 and both ranked hotspot tables surface it — the
page run renders the noise summary as its sole ranked hotspot, contradicting
the claim that noise is excluded from summaries and never ranked. -/
theorem C1_counterexample_noise_ranked :
    ((pageMapTop (render_dbscan_page exOnePoint 1 2 true "All counties" "All cities")).map
      fun s => (s.cluster, s.fatalities, s.zone_label, s.zone_color)) =
        [(-1, 3, "Low Danger", "green")] ∧
    pageMetrics (render_dbscan_page exOnePoint 1 2 true "All counties" "All cities") =
      [{ cluster := -1, crashes := 1, fatalities := 3, zone_label := "Low Danger" }] := by
  decide

/-- C1 amended: the aggregation stage produces exactly one ClusterSummary per
distinct cluster id present in the assignment, the noise id -1 included when
present — the summary lists are strictly sorted by id (hence duplicate-free)
and contain an id exactly when some row carries it. -/
theorem C1_amended_one_summary_per_id (d : DF) :
    ((cluster_summary_map d).map Summary1.cluster).Pairwise (· < ·) ∧
    (∀ c : ℤ, c ∈ (cluster_summary_map d).map Summary1.cluster ↔ c ∈ d.clusterCol) ∧
    ((cluster_summary_metrics d).map Summary2.cluster).Pairwise (· < ·) ∧
    (∀ c : ℤ, c ∈ (cluster_summary_metrics d).map Summary2.cluster ↔ c ∈ d.clusterCol) := by
  have hmap : (cluster_summary_map d).map Summary1.cluster = sortedIds d.clusterCol := by
    unfold cluster_summary_map
    rw [List.map_map]
    exact List.map_id _
  have hmet : (cluster_summary_metrics d).map Summary2.cluster = sortedIds d.clusterCol := by
    unfold cluster_summary_metrics
    rw [List.map_map]
    exact List.map_id _
  refine ⟨?_, ?_, ?_, ?_⟩
  · rw [hmap]; exact sortedIds_pairwise _
  · intro c; rw [hmap]; exact mem_sortedIds c _
  · rw [hmet]; exact sortedIds_pairwise _
  · intro c; rw [hmet]; exact mem_sortedIds c _

/-- C1 amended witness: `C1_amended_one_summary_per_id` at the concrete
clustered frame `exTwoCl`. -/
theorem C1_amended_one_summary_per_id_witness :
    ((cluster_summary_map exTwoCl).map Summary1.cluster).Pairwise (· < ·) ∧
    (∀ c : ℤ, c ∈ (cluster_summary_map exTwoCl).map Summary1.cluster ↔ c ∈ exTwoCl.clusterCol) ∧
    ((cluster_summary_metrics exTwoCl).map Summary2.cluster).Pairwise (· < ·) ∧
    (∀ c : ℤ, c ∈ (cluster_summary_metrics exTwoCl).map Summary2.cluster ↔ c ∈ exTwoCl.clusterCol) :=
  C1_amended_one_summary_per_id exTwoCl

/-- C9 counterexample: after the clustering call on the one-point frame, the
caller's table is no longer the table it passed in — the call added a
`cluster` column (with value -1) in place, so the clustering step does not
leave the caller's table unchanged. -/
theorem C9_counterexample_table_mutated :
    caller_table_after exOnePoint 1 2 ≠ exOnePoint ∧
    exOnePoint.cluster = none ∧
    (caller_table_after exOnePoint 1 2).cluster = some [-1] := by
  decide

/-- C9 amended: each pipeline stage is a deterministic function of its
inputs, but the clustering step mutates the caller's table in place: after a
successful run the caller's table is the clustered frame, which keeps the
original LATITUDE / LONGITUD / FATALS columns and has gained the four derived
columns `cluster`, `fatalities`, `zone_label`, `zone_color`. -/
theorem C9_amended_in_place_columns (df : DF) (eps : ℚ) (ms : ℤ) (d : DF)
    (hok : apply_dbscan_clustering df eps ms = ClusterResult.ok d) :
    d.LATITUDE = df.LATITUDE ∧ d.LONGITUD = df.LONGITUD ∧ d.FATALS = df.FATALS ∧
    d.cluster.isSome = true ∧ d.fatalities.isSome = true ∧
    d.zone_label.isSome = true ∧ d.zone_color.isSome = true ∧
    caller_table_after df eps ms = d := by
  obtain ⟨h1, h2, h3, h4⟩ := apply_ok_elim hok
  subst h4
  refine ⟨rfl, rfl, rfl, rfl, rfl, rfl, rfl, ?_⟩
  unfold caller_table_after
  rw [hok]

/-- C9 amended witness: `C9_amended_in_place_columns` at the concrete frame
`exTwo` with `eps = 1`, `min_samples = 1`. -/
theorem C9_amended_in_place_columns_witness :
    exTwoCl.LATITUDE = exTwo.LATITUDE ∧ exTwoCl.LONGITUD = exTwo.LONGITUD ∧
    exTwoCl.FATALS = exTwo.FATALS ∧ exTwoCl.cluster.isSome = true ∧
    exTwoCl.fatalities.isSome = true ∧ exTwoCl.zone_label.isSome = true ∧
    exTwoCl.zone_color.isSome = true ∧ caller_table_after exTwo 1 1 = exTwoCl :=
  C9_amended_in_place_columns exTwo 1 1 exTwoCl (by decide)

/-- C10: in a successful clustering run, every row labelled noise (-1)
receives as its `fatalities` value the sum of the FATALS counts over all
noise rows taken together, and its zone label and color are the classifier
applied to that collective sum — noise is treated exactly as one more
cluster by lines 25 and 36. -/
theorem C10_noise_collective_fatalities (df : DF) (eps : ℚ) (ms : ℤ) (d : DF) (i : ℕ)
    (hok : apply_dbscan_clustering df eps ms = ClusterResult.ok d)
    (hi : i < d.clusterCol.length)
    (hnoise : d.clusterCol.getD i 0 = -1) :
    d.fatalitiesCol.getD i 0 =
      (((d.clusterCol.zip df.FATALS).filter fun p => decide (p.1 = -1)).map fun p => p.2).sum ∧
    d.zoneLabelCol.getD i "" =
      (categorize_zone ((((d.clusterCol.zip df.FATALS).filter fun p => decide (p.1 = -1)).map
        fun p => p.2).sum)).1 ∧
    d.zoneColorCol.getD i "" =
      (categorize_zone ((((d.clusterCol.zip df.FATALS).filter fun p => decide (p.1 = -1)).map
        fun p => p.2).sum)).2 := by
  obtain ⟨h1, h2, h3, h4⟩ := apply_ok_elim hok
  subst h4
  simp only [DF.clusterCol, DF.fatalitiesCol, DF.zoneLabelCol, DF.zoneColorCol,
    Option.getD_some] at hi hnoise ⊢
  have hg : (transformSum (fit_predict eps ms (validCoords df)) df.FATALS).getD i 0 =
      aggSumF (fit_predict eps ms (validCoords df)) df.FATALS
        ((fit_predict eps ms (validCoords df)).getD i 0) := by
    unfold transformSum
    exact getD_map_lt _ _ i 0 0 hi
  have hz1 : ((transformSum (fit_predict eps ms (validCoords df)) df.FATALS).map
      fun f => (categorize_zone f).1).getD i "" =
      (categorize_zone (aggSumF (fit_predict eps ms (validCoords df)) df.FATALS
        ((fit_predict eps ms (validCoords df)).getD i 0))).1 := by
    unfold transformSum
    rw [List.map_map]
    exact getD_map_lt _ _ i "" 0 hi
  have hz2 : ((transformSum (fit_predict eps ms (validCoords df)) df.FATALS).map
      fun f => (categorize_zone f).2).getD i "" =
      (categorize_zone (aggSumF (fit_predict eps ms (validCoords df)) df.FATALS
        ((fit_predict eps ms (validCoords df)).getD i 0))).2 := by
    unfold transformSum
    rw [List.map_map]
    exact getD_map_lt _ _ i "" 0 hi
  rw [hnoise] at hg hz1 hz2
  exact ⟨hg, hz1, hz2⟩

/-- C10 witness: `C10_noise_collective_fatalities` at the two-noise-point
frame `exNoise2` clustered with `eps = 1`, `min_samples = 2`, row 0. -/
theorem C10_noise_collective_fatalities_witness :
    exNoise2Cl.fatalitiesCol.getD 0 0 =
      (((exNoise2Cl.clusterCol.zip exNoise2.FATALS).filter fun p => decide (p.1 = -1)).map
        fun p => p.2).sum ∧
    exNoise2Cl.zoneLabelCol.getD 0 "" =
      (categorize_zone ((((exNoise2Cl.clusterCol.zip exNoise2.FATALS).filter
        fun p => decide (p.1 = -1)).map fun p => p.2).sum)).1 ∧
    exNoise2Cl.zoneColorCol.getD 0 "" =
      (categorize_zone ((((exNoise2Cl.clusterCol.zip exNoise2.FATALS).filter
        fun p => decide (p.1 = -1)).map fun p => p.2).sum)).2 :=
  C10_noise_collective_fatalities exNoise2 1 2 exNoise2Cl 0 (by decide) (by decide) (by decide)

/-- C5: both rankers (the map-side top 10 by fatalities and the metrics-side
top N by crashes) return at most N summaries, ordered descending by their
ranking key with equal-key ties broken by ascending cluster id (the input
summaries come sorted ascending by id and `nlargest` keeps first occurrences
on ties), every returned summary comes from the input, and when the input has
at most N summaries all of them are returned. -/
theorem C5_ranker_orders_and_truncates (s1 : List Summary1) (s2 : List Summary2) (n : ℕ)
    (h1 : s1.Pairwise fun a b => a.cluster < b.cluster)
    (h2 : s2.Pairwise fun a b => a.cluster < b.cluster) :
    ((top_clusters_map s1).length = min 10 s1.length ∧
      (top_clusters_map s1).Pairwise (fun a b =>
        b.fatalities < a.fatalities ∨ (a.fatalities = b.fatalities ∧ a.cluster < b.cluster)) ∧
      (∀ x ∈ top_clusters_map s1, x ∈ s1) ∧
      (s1.length ≤ 10 → ∀ x ∈ s1, x ∈ top_clusters_map s1)) ∧
    ((top_clusters_metrics n s2).length = min n s2.length ∧
      (top_clusters_metrics n s2).Pairwise (fun a b =>
        b.crashes < a.crashes ∨ (a.crashes = b.crashes ∧ a.cluster < b.cluster)) ∧
      (∀ x ∈ top_clusters_metrics n s2, x ∈ s2) ∧
      (s2.length ≤ n → ∀ x ∈ s2, x ∈ top_clusters_metrics n s2)) :=
  ⟨⟨nlargest_length 10 Summary1.fatalities s1,
    nlargest_pairwise 10 Summary1.fatalities Summary1.cluster s1 h1,
    nlargest_mem 10 Summary1.fatalities s1,
    fun h => nlargest_all 10 Summary1.fatalities s1 h⟩,
   ⟨nlargest_length n Summary2.crashes s2,
    nlargest_pairwise n Summary2.crashes Summary2.cluster s2 h2,
    nlargest_mem n Summary2.crashes s2,
    fun h => nlargest_all n Summary2.crashes s2 h⟩⟩

/-- C5 witness: `C5_ranker_orders_and_truncates` at the concrete summary
lists `exRank1` and `exRank` with `n = 2`. -/
theorem C5_ranker_orders_and_truncates_witness :
    ((top_clusters_map exRank1).length = min 10 exRank1.length ∧
      (top_clusters_map exRank1).Pairwise (fun a b =>
        b.fatalities < a.fatalities ∨ (a.fatalities = b.fatalities ∧ a.cluster < b.cluster)) ∧
      (∀ x ∈ top_clusters_map exRank1, x ∈ exRank1) ∧
      (exRank1.length ≤ 10 → ∀ x ∈ exRank1, x ∈ top_clusters_map exRank1)) ∧
    ((top_clusters_metrics 2 exRank).length = min 2 exRank.length ∧
      (top_clusters_metrics 2 exRank).Pairwise (fun a b =>
        b.crashes < a.crashes ∨ (a.crashes = b.crashes ∧ a.cluster < b.cluster)) ∧
      (∀ x ∈ top_clusters_metrics 2 exRank, x ∈ exRank) ∧
      (exRank.length ≤ 2 → ∀ x ∈ exRank, x ∈ top_clusters_metrics 2 exRank)) :=
  C5_ranker_orders_and_truncates exRank1 exRank 2 (by decide) (by decide)

/-- Reduction of the page through a successful clustering call: with a
non-empty filtered frame and `apply_dbscan_clustering` returning `ok d`, the
page continues with `d` (lines 206-221). -/
theorem page_ok_eq (df : DF) (eps : ℚ) (ms : ℤ) (d : DF) (so : Bool) (county city : String)
    (hok : apply_dbscan_clustering df eps ms = ClusterResult.ok d)
    (hn : ¬ df.nrows = 0) :
    render_dbscan_page df eps ms so county city = afterClustering d so county city := by
  unfold render_dbscan_page
  rw [if_neg hn, hok]

/-- C8 counterexample: with a fixed clustered dataset (six singleton
clusters) and everything else fixed, the number of ranked metric summaries
varies with the county and city filter selections alone — 6 rows (top_n 10)
with no geographic filter, 5 with a county selected, 3 with only a city
selected — so the core derives the ranking size from the filters rather than
treating it as an opaque caller-supplied value. -/
theorem C8_counterexample_topn_from_filters :
    (pageMetrics (render_dbscan_page exSix 1 1 true "All counties" "All cities")).length = 6 ∧
    (pageMetrics (render_dbscan_page exSix 1 1 true "Denver" "All cities")).length = 5 ∧
    (pageMetrics (render_dbscan_page exSix 1 1 true "All counties" "Denver")).length = 3 := by
  decide

/-- C8 amended: the ranking size is not an opaque caller-supplied parameter —
the renderer derives it from the geographic filters (5 when a county is
selected, else 3 when a city is selected, else 10) and returns
min(top_n, number of distinct cluster ids) metric summaries, so the ranked
output varies with the filter selections for a fixed clustered dataset. -/
theorem C8_amended_topn_derived (df : DF) (eps : ℚ) (ms : ℤ) (d : DF) (county city : String)
    (hok : apply_dbscan_clustering df eps ms = ClusterResult.ok d)
    (hn : ¬ df.nrows = 0) :
    (county ≠ "All counties" → choose_top_n county city = 5) ∧
    (county = "All counties" → city ≠ "All cities" → choose_top_n county city = 3) ∧
    (county = "All counties" → city = "All cities" → choose_top_n county city = 10) ∧
    (pageMetrics (render_dbscan_page df eps ms true county city)).length =
      min (choose_top_n county city) (sortedIds d.clusterCol).length := by
  obtain ⟨h1, h2, h3, h4⟩ := apply_ok_elim hok
  refine ⟨?_, ?_, ?_, ?_⟩
  · intro h
    simp [choose_top_n, h]
  · intro hco hci
    simp [choose_top_n, hco, hci]
  · intro hco hci
    simp [choose_top_n, hco, hci]
  · have hder : d.cluster.isSome = true := by
      rw [h4]
      rfl
    have hnro : ¬ d.nrows = 0 := by
      rw [h4]
      exact hn
    have hlen : (cluster_summary_metrics d).length = (sortedIds d.clusterCol).length := by
      unfold cluster_summary_metrics
      rw [List.length_map]
    rw [page_ok_eq df eps ms d true county city hok hn]
    unfold afterClustering
    rw [if_pos hder]
    unfold render_map_and_metrics_with_dbscan
    rw [if_pos (rfl : true = true), if_neg hnro]
    show (top_clusters_metrics (choose_top_n county city) (cluster_summary_metrics d)).length = _
    unfold top_clusters_metrics
    rw [nlargest_length, hlen]

/-- C8 amended witness: `C8_amended_topn_derived` at the six-cluster frame
`exSix` with a county selected. -/
theorem C8_amended_topn_derived_witness :
    ("Denver" ≠ "All counties" → choose_top_n "Denver" "All cities" = 5) ∧
    ("Denver" = "All counties" → "All cities" ≠ "All cities" →
      choose_top_n "Denver" "All cities" = 3) ∧
    ("Denver" = "All counties" → "All cities" = "All cities" →
      choose_top_n "Denver" "All cities" = 10) ∧
    (pageMetrics (render_dbscan_page exSix 1 1 true "Denver" "All cities")).length =
      min (choose_top_n "Denver" "All cities") (sortedIds exSixCl.clusterCol).length :=
  C8_amended_topn_derived exSix 1 1 exSixCl "Denver" "All cities" (by decide) (by decide)

/-- C4: in a successful clustering run, for every cluster id c >= 0 present
in the assignment the aggregation stages produce a summary for c whose crash
count is the number of rows assigned c, whose fatality sum is the sum of the
FATALS counts of exactly those rows, whose centroid coordinates are the
arithmetic means of their latitudes and longitudes (sum over the group
divided by the group size), and whose danger tier and color are the
classifier applied to that fatality sum. -/
theorem C4_summary_aggregation (df : DF) (eps : ℚ) (ms : ℤ) (d : DF) (c : ℤ)
    (hwf : df.Wf)
    (hok : apply_dbscan_clustering df eps ms = ClusterResult.ok d)
    (hc : c ∈ d.clusterCol) (_hcnn : 0 ≤ c) :
    ({ cluster := c,
       fatalities := (((d.clusterCol.zip d.FATALS).filter fun p => decide (p.1 = c)).map
         fun p => p.2).sum,
       zone_label := (categorize_zone ((((d.clusterCol.zip d.FATALS).filter
         fun p => decide (p.1 = c)).map fun p => p.2).sum)).1,
       zone_color := (categorize_zone ((((d.clusterCol.zip d.FATALS).filter
         fun p => decide (p.1 = c)).map fun p => p.2).sum)).2,
       lat := some (((((d.clusterCol.zip d.LATITUDE).filter fun p => decide (p.1 = c)).filterMap
         fun p => p.2).sum) / ((d.clusterCol.countP fun x => decide (x = c) : ℕ) : ℚ)),
       lon := some (((((d.clusterCol.zip d.LONGITUD).filter fun p => decide (p.1 = c)).filterMap
         fun p => p.2).sum) / ((d.clusterCol.countP fun x => decide (x = c) : ℕ) : ℚ)) } : Summary1)
      ∈ cluster_summary_map d ∧
    ({ cluster := c,
       crashes := d.clusterCol.countP fun x => decide (x = c),
       fatalities := (((d.clusterCol.zip d.FATALS).filter fun p => decide (p.1 = c)).map
         fun p => p.2).sum,
       zone_label := (categorize_zone ((((d.clusterCol.zip d.FATALS).filter
         fun p => decide (p.1 = c)).map fun p => p.2).sum)).1 } : Summary2)
      ∈ cluster_summary_metrics d := by
  obtain ⟨h1, h2, h3, h4⟩ := apply_ok_elim hok
  subst h4
  simp only [DF.clusterCol, DF.fatalitiesCol, DF.zoneLabelCol, DF.zoneColorCol,
    Option.getD_some] at hc ⊢
  have hva : (validCoords df).length = df.LATITUDE.length := by
    rw [← fit_predict_length eps ms (validCoords df)]
    exact h3
  have hlatlen : df.LATITUDE.length = (fit_predict eps ms (validCoords df)).length := by
    rw [fit_predict_length]
    exact hva.symm
  have hlonlen : df.LONGITUD.length = (fit_predict eps ms (validCoords df)).length :=
    hwf.1.trans hlatlen
  obtain ⟨hallLat, hallLon⟩ := validCoords_isSome df.LATITUDE df.LONGITUD hwf.1 hva
  have hcs : c ∈ sortedIds (fit_predict eps ms (validCoords df)) :=
    (mem_sortedIds c _).mpr hc
  have e1 : aggFirst 0 (fit_predict eps ms (validCoords df))
      (transformSum (fit_predict eps ms (validCoords df)) df.FATALS) c =
      ((((fit_predict eps ms (validCoords df)).zip df.FATALS).filter
        fun p => decide (p.1 = c)).map fun p => p.2).sum := by
    unfold transformSum
    exact aggFirst_map 0 _ _ c hc
  have e2 : aggFirst "" (fit_predict eps ms (validCoords df))
      ((transformSum (fit_predict eps ms (validCoords df)) df.FATALS).map
        fun f => (categorize_zone f).1) c =
      (categorize_zone (((((fit_predict eps ms (validCoords df)).zip df.FATALS).filter
        fun p => decide (p.1 = c)).map fun p => p.2).sum)).1 := by
    unfold transformSum
    rw [List.map_map]
    exact aggFirst_map "" _ _ c hc
  have e3 : aggFirst "" (fit_predict eps ms (validCoords df))
      ((transformSum (fit_predict eps ms (validCoords df)) df.FATALS).map
        fun f => (categorize_zone f).2) c =
      (categorize_zone (((((fit_predict eps ms (validCoords df)).zip df.FATALS).filter
        fun p => decide (p.1 = c)).map fun p => p.2).sum)).2 := by
    unfold transformSum
    rw [List.map_map]
    exact aggFirst_map "" _ _ c hc
  have e4 := aggMean_eq_of_all_isSome (fit_predict eps ms (validCoords df)) df.LATITUDE c
    hallLat hlatlen hc
  have e5 := aggMean_eq_of_all_isSome (fit_predict eps ms (validCoords df)) df.LONGITUD c
    hallLon hlonlen hc
  have e6 : aggSize (fit_predict eps ms (validCoords df)) c =
      (fit_predict eps ms (validCoords df)).countP fun x => decide (x = c) := by
    unfold aggSize
    exact (List.countP_eq_length_filter _ _).symm
  constructor
  · have hmem :
        ({ cluster := c,
           fatalities := aggFirst 0 (fit_predict eps ms (validCoords df))
             (transformSum (fit_predict eps ms (validCoords df)) df.FATALS) c,
           zone_label := aggFirst "" (fit_predict eps ms (validCoords df))
             ((transformSum (fit_predict eps ms (validCoords df)) df.FATALS).map
               fun f => (categorize_zone f).1) c,
           zone_color := aggFirst "" (fit_predict eps ms (validCoords df))
             ((transformSum (fit_predict eps ms (validCoords df)) df.FATALS).map
               fun f => (categorize_zone f).2) c,
           lat := aggMean (fit_predict eps ms (validCoords df)) df.LATITUDE c,
           lon := aggMean (fit_predict eps ms (validCoords df)) df.LONGITUD c } : Summary1) ∈
          cluster_summary_map
            { LATITUDE := df.LATITUDE, LONGITUD := df.LONGITUD, FATALS := df.FATALS,
              cluster := some (fit_predict eps ms (validCoords df)),
              fatalities := some (transformSum (fit_predict eps ms (validCoords df)) df.FATALS),
              zone_label := some ((transformSum (fit_predict eps ms (validCoords df))
                df.FATALS).map fun f => (categorize_zone f).1),
              zone_color := some ((transformSum (fit_predict eps ms (validCoords df))
                df.FATALS).map fun f => (categorize_zone f).2) } := by
      unfold cluster_summary_map
      exact List.mem_map_of_mem _ hcs
    rw [e1, e2, e3, e4, e5] at hmem
    exact hmem
  · have hmem :
        ({ cluster := c,
           crashes := aggSize (fit_predict eps ms (validCoords df)) c,
           fatalities := aggSumF (fit_predict eps ms (validCoords df)) df.FATALS c,
           zone_label := aggFirst "" (fit_predict eps ms (validCoords df))
             ((transformSum (fit_predict eps ms (validCoords df)) df.FATALS).map
               fun f => (categorize_zone f).1) c } : Summary2) ∈
          cluster_summary_metrics
            { LATITUDE := df.LATITUDE, LONGITUD := df.LONGITUD, FATALS := df.FATALS,
              cluster := some (fit_predict eps ms (validCoords df)),
              fatalities := some (transformSum (fit_predict eps ms (validCoords df)) df.FATALS),
              zone_label := some ((transformSum (fit_predict eps ms (validCoords df))
                df.FATALS).map fun f => (categorize_zone f).1),
              zone_color := some ((transformSum (fit_predict eps ms (validCoords df))
                df.FATALS).map fun f => (categorize_zone f).2) } := by
      unfold cluster_summary_metrics
      exact List.mem_map_of_mem _ hcs
    rw [e2, e6] at hmem
    exact hmem

/-- C4 witness: `C4_summary_aggregation` at the two-point frame `exTwo`
(both points in cluster 0) with `eps = 1`, `min_samples = 1`. -/
theorem C4_summary_aggregation_witness :
    ({ cluster := 0,
       fatalities := (((exTwoCl.clusterCol.zip exTwoCl.FATALS).filter
         fun p => decide (p.1 = 0)).map fun p => p.2).sum,
       zone_label := (categorize_zone ((((exTwoCl.clusterCol.zip exTwoCl.FATALS).filter
         fun p => decide (p.1 = 0)).map fun p => p.2).sum)).1,
       zone_color := (categorize_zone ((((exTwoCl.clusterCol.zip exTwoCl.FATALS).filter
         fun p => decide (p.1 = 0)).map fun p => p.2).sum)).2,
       lat := some (((((exTwoCl.clusterCol.zip exTwoCl.LATITUDE).filter
         fun p => decide (p.1 = 0)).filterMap fun p => p.2).sum) /
         ((exTwoCl.clusterCol.countP fun x => decide (x = 0) : ℕ) : ℚ)),
       lon := some (((((exTwoCl.clusterCol.zip exTwoCl.LONGITUD).filter
         fun p => decide (p.1 = 0)).filterMap fun p => p.2).sum) /
         ((exTwoCl.clusterCol.countP fun x => decide (x = 0) : ℕ) : ℚ)) } : Summary1)
      ∈ cluster_summary_map exTwoCl ∧
    ({ cluster := 0,
       crashes := exTwoCl.clusterCol.countP fun x => decide (x = 0),
       fatalities := (((exTwoCl.clusterCol.zip exTwoCl.FATALS).filter
         fun p => decide (p.1 = 0)).map fun p => p.2).sum,
       zone_label := (categorize_zone ((((exTwoCl.clusterCol.zip exTwoCl.FATALS).filter
         fun p => decide (p.1 = 0)).map fun p => p.2).sum)).1 } : Summary2)
      ∈ cluster_summary_metrics exTwoCl :=
  C4_summary_aggregation exTwo 1 1 exTwoCl 0 ⟨rfl, rfl⟩ (by decide) (by decide) (by decide)
